import Mathlib

/-!
Shallow embedding of the AATM configuration module (aatm_config.py) and the
Firebase state manager (state_manager.py).

Modelling conventions:
* Python floats that only take part in order comparisons are embedded as `Rat`.
* Side effects (log emission, file reads, network operations) are recorded in
  an explicit `Event` trace returned next to each function's value.
* Python exceptions are embedded as `Except`: `Except.error e` is an exception
  propagating out of the embedded function, `Except.ok` a normal return.
* The process environment is a function from variable names to optional values.
* External collaborators (the credential file system, the Firestore service)
  are oracles carried in a `World` record; the `firebase_admin._apps` process
  global is threaded explicitly as a `Bool` (whether an app already exists).
* The source file state_manager.py is cut off in the middle of
  `_test_connection` (after the text `future.result(timeout=`); the parts of
  that function missing from the source are modelled from the spec and are
  marked as such in their doc comments.
-/

/-- Trading operation modes (`TradingMode` in aatm_config.py). -/
inductive TradingMode
  | backtest
  | paper
  | live
  | simulation
  deriving DecidableEq

/-- Supported asset classes (`AssetClass` in aatm_config.py). -/
inductive AssetClass
  | crypto
  | stocks
  | forex
  | futures
  deriving DecidableEq

/-- Market-specific configuration (`MarketConfig`). -/
structure MarketConfig where
  exchange : String := "binance"
  symbol : String := "BTC/USDT"
  timeframe : String := "1h"
  asset_class : AssetClass := AssetClass.crypto
  max_historical_candles : Int := 1000
  realtime_update_interval : Int := 60
  deriving DecidableEq

/-- Strategy evolution configuration (`StrategyConfig`). -/
structure StrategyConfig where
  initial_population_size : Int := 10
  evolution_interval_hours : Int := 24
  performance_window_days : Int := 30
  mutation_rate : Rat := 1/10
  crossover_rate : Rat := 7/10
  elitism_count : Int := 2
  max_strategy_complexity : Int := 50
  deriving DecidableEq

/-- Risk management configuration (`RiskConfig`). -/
structure RiskConfig where
  max_position_size_pct : Rat := 2
  max_portfolio_risk_pct : Rat := 5
  stop_loss_pct : Rat := 2
  take_profit_pct : Rat := 4
  max_daily_loss_pct : Rat := 3
  max_concurrent_trades : Int := 5
  deriving DecidableEq

/-- Firebase configuration (`FirebaseConfig`). The two environment-driven
fields have no Lean-side default: they are filled in by
`FirebaseConfig.fromEnv`, the embedding of the dataclass default factories. -/
structure FirebaseConfig where
  project_id : String
  credentials_path : String
  collection_strategies : String := "aatm_strategies"
  collection_performance : String := "aatm_performance"
  collection_market_state : String := "aatm_market_state"
  collection_trade_logs : String := "aatm_trade_logs"
  deriving DecidableEq

/-- A process environment: maps a variable name to its value, if set. -/
abbrev Env : Type := String → Option String

/-- Embedding of Python's `os.getenv(name, defaultVal)`: the variable's value
when set (even when set to the empty string), the default otherwise. -/
def os_getenv (env : Env) (name defaultVal : String) : String :=
  (env name).getD defaultVal

/-- The dataclass default factories of `FirebaseConfig`:
`project_id = os.getenv("FIREBASE_PROJECT_ID", "")` and
`credentials_path = os.getenv("FIREBASE_CREDENTIALS_PATH", "./firebase_credentials.json")`. -/
def FirebaseConfig.fromEnv (env : Env) : FirebaseConfig where
  project_id := os_getenv env "FIREBASE_PROJECT_ID" ""
  credentials_path := os_getenv env "FIREBASE_CREDENTIALS_PATH" "./firebase_credentials.json"

/-- Main AATM configuration container (`AATMConfig`). -/
structure AATMConfig where
  trading_mode : TradingMode := TradingMode.paper
  module_name : String := "aatm_v1"
  log_level : String := "INFO"
  market : MarketConfig := {}
  strategy : StrategyConfig := {}
  risk : RiskConfig := {}
  firebase : FirebaseConfig
  enable_auto_evolution : Bool := true
  enable_telegram_alerts : Bool := true
  enable_performance_tracking : Bool := true
  enable_market_regime_detection : Bool := true
  deriving DecidableEq

/-- Log levels of the logging collaborator. -/
inductive LogLevel
  | info
  | warning
  | error
  deriving DecidableEq

/-- Observable events of the embedded code: log emissions, the credential file
read performed by `credentials.Certificate`, the process-wide
`firebase_admin.initialize_app` call, the `firestore.client()` call, the start
of a `_test_connection` probe, and the probe's two network operations. -/
inductive Event
  | log (level : LogLevel) (msg : String)
  | certificateLoad (path : String)
  | appInit (projectId : String)
  | clientConstruct
  | probeStart
  | netSet
  | netDelete
  deriving DecidableEq

/-- Whether an event is a network call (only the probe's store operations
touch the network; certificate loading is file I/O, and app and client
construction are local). -/
def Event.isNetwork : Event → Bool
  | Event.netSet => true
  | Event.netDelete => true
  | _ => false

/-- True when a trace performs no network call. -/
def noNetwork (tr : List Event) : Bool :=
  tr.all fun e => ! e.isNetwork

/-- Whether an event is a `firebase_admin.initialize_app` call. -/
def Event.isAppInit : Event → Bool
  | Event.appInit _ => true
  | _ => false

/-- Whether an event is the start of a `_test_connection` probe. -/
def Event.isProbe : Event → Bool
  | Event.probeStart => true
  | _ => false

/-- Number of `initialize_app` calls in a trace. -/
def countAppInit (tr : List Event) : Nat :=
  (tr.filter Event.isAppInit).length

/-- Number of connectivity probes run in a trace. -/
def countProbe (tr : List Event) : Nat :=
  (tr.filter Event.isProbe).length

/-- Whether an `Except` value is a propagating exception. -/
def excRaised {ε α : Type} : Except ε α → Bool
  | Except.error _ => true
  | Except.ok _ => false

/-- Embedding of `AATMConfig.validate`: returns the boolean and the emitted
diagnostics. The Python `if not self.firebase.project_id` is truthiness on a
string, i.e. the empty-string test. -/
def AATMConfig.validate (cfg : AATMConfig) : Bool × List Event :=
  if cfg.firebase.project_id = "" then
    (false, [Event.log LogLevel.error "Firebase project ID not configured"])
  else
    (true,
      if cfg.risk.max_position_size_pct > 10 then
        [Event.log LogLevel.warning "Position size exceeds recommended maximum"]
      else [])

/-- What the body of the probe worker does on a given run: the write-then-
delete round trip succeeds, or some exception is raised inside it. -/
inductive ProbeBodyOutcome
  | ok
  | exc (cause : String)
  deriving DecidableEq

/-- The probe body inside `connection_test` (the `doc_ref.set` /
`doc_ref.delete` round trip): an `Except.error` is an exception raised by the
store client, the ok case records the two network operations. -/
def probeBodyRun : ProbeBodyOutcome → Except String (List Event)
  | ProbeBodyOutcome.ok => Except.ok [Event.netSet, Event.netDelete]
  | ProbeBodyOutcome.exc cause => Except.error cause

/-- The `connection_test` closure of `_test_connection`: runs the probe body
under `try/except Exception`, returning `True` on success and converting every
exception into `False` plus an error log. The outer `Except` is the channel
for exceptions escaping `connection_test` itself. -/
def connection_test (o : ProbeBodyOutcome) : Except String (Bool × List Event) :=
  match probeBodyRun o with
  | Except.ok evs => Except.ok (true, evs)
  | Except.error cause =>
      Except.ok (false,
        [Event.log LogLevel.error ("Firebase connection test failed: " ++ cause)])

/-- The value and trace the worker produces when it eventually finishes
(`connection_test` never raises, so the error branch is unreachable). -/
def connection_test_run (o : ProbeBodyOutcome) : Bool × List Event :=
  match connection_test o with
  | Except.ok p => p
  | Except.error _ => (false, [])

/-- One run of the probe as scheduled on the worker: how many seconds the
worker takes to finish, and what its body does. -/
structure ProbeRun where
  workerDuration : Nat
  outcome : ProbeBodyOutcome
  deriving DecidableEq

/-- Outcome of `_test_connection` as seen by its caller. -/
inductive ProbeResult
  | ok
  | testFailed
  | timedOut
  deriving DecidableEq

/-- Embedding of `_test_connection`: submits `connection_test` to a
single-worker `ThreadPoolExecutor` and waits on `future.result` with a
timeout. Returns (result, worker trace, caller unblock time in seconds).

`future.result(timeout=T)` yields the worker's value at `min(duration, T)`
when the worker finishes in time and raises `TimeoutError` at `T` otherwise;
but the surrounding `with` block joins the worker on exit
(`ThreadPoolExecutor.__exit__` calls `shutdown(wait=True)`, and a running
task is not cancellable), so the caller is unblocked only once the worker has
finished: at `max (min duration T) duration` seconds.

Modelled from the spec: the numeric timeout and the `TimeoutError` handler are
cut off in the source (`success = future.result(timeout=`); per the spec a
worker exceeding the bound yields the timeout result, so the timeout bound is
taken as a parameter and exceeding it produces `ProbeResult.timedOut`. -/
def test_connection (timeoutSeconds : Nat) (r : ProbeRun) :
    ProbeResult × List Event × Nat :=
  let result :=
    if r.workerDuration ≤ timeoutSeconds then
      (if (connection_test_run r.outcome).1 then ProbeResult.ok
       else ProbeResult.testFailed)
    else ProbeResult.timedOut
  (result, Event.probeStart :: (connection_test_run r.outcome).2,
    max (min r.workerDuration timeoutSeconds) r.workerDuration)

/-- An opaque client handle (`firestore.client()` returns the per-app cached
client, so the handle is determined by the process-wide app). -/
structure ClientHandle where
  id : Nat
  deriving DecidableEq

/-- The Python-visible state of a `StateManager` instance. -/
structure StateManager where
  client : Option ClientHandle
  initialized : Bool
  deriving DecidableEq

/-- Exceptions arising in `_initialize_firebase`, matching its three except
clauses: `FileNotFoundError` from `credentials.Certificate`, `ValueError`
from the empty-credentials-path check, and the probe failures falling under
`except Exception`. -/
inductive Exc
  | fileNotFound (path : String)
  | valueError (msg : String)
  | connectionFailed (r : ProbeResult)
  deriving DecidableEq

/-- External collaborators: whether `credentials.Certificate` can read a given
path, and how the connectivity probe behaves on this run. -/
structure World where
  credReadable : String → Bool
  probeRun : ProbeRun

/-- The app-setup prefix of `_initialize_firebase`'s try block: when no app
exists yet (`if not firebase_admin._apps`), check the credentials path for
emptiness (raising `ValueError`), load the certificate (raising
`FileNotFoundError` when unreadable), create the app and log at info level.
Returns the possibly-raised exception or the new apps flag, plus the trace. -/
def app_setup (w : World) (apps : Bool) (cfg : AATMConfig) :
    Except Exc Bool × List Event :=
  if apps then (Except.ok apps, [])
  else if cfg.firebase.credentials_path = "" then
    (Except.error (Exc.valueError "Firebase credentials path not configured"), [])
  else if w.credReadable cfg.firebase.credentials_path then
    (Except.ok true,
      [Event.certificateLoad cfg.firebase.credentials_path,
       Event.appInit cfg.firebase.project_id,
       Event.log LogLevel.info
         ("Firebase initialized for project: " ++ cfg.firebase.project_id)])
  else
    (Except.error (Exc.fileNotFound cfg.firebase.credentials_path),
      [Event.certificateLoad cfg.firebase.credentials_path])

/-- The tail of `_initialize_firebase`'s try block after app setup:
`self.client = firestore.client()`, `self._initialized = True`, then
`self._test_connection()`. Note the instance is marked initialized and the
handle cached before the probe runs.

Modelled from the spec: what `_test_connection` does after the probe is cut
off in the source; per the spec a probe failure or timeout fails the
initialization attempt, embedded here as an exception carrying the probe
result, which falls under the `except Exception` clause. -/
def after_setup (timeoutSeconds : Nat) (pr : ProbeRun) (apps1 : Bool)
    (tr1 : List Event) : Except Exc Unit × Bool × StateManager × List Event :=
  let sm1 : StateManager := { client := some (ClientHandle.mk 0), initialized := true }
  let tr := tr1 ++ Event.clientConstruct :: (test_connection timeoutSeconds pr).2.1
  match (test_connection timeoutSeconds pr).1 with
  | ProbeResult.ok => (Except.ok (), apps1, sm1, tr)
  | ProbeResult.testFailed =>
      (Except.error (Exc.connectionFailed ProbeResult.testFailed), apps1, sm1, tr)
  | ProbeResult.timedOut =>
      (Except.error (Exc.connectionFailed ProbeResult.timedOut), apps1, sm1, tr)

/-- The try block of `_initialize_firebase`. Takes the process-wide apps flag
and the instance state; returns (result, apps flag, instance state, trace). -/
def initialize_firebase_try (w : World) (timeoutSeconds : Nat) (apps : Bool)
    (cfg : AATMConfig) (sm : StateManager) :
    Except Exc Unit × Bool × StateManager × List Event :=
  match app_setup w apps cfg with
  | (Except.error e, tr) => (Except.error e, apps, sm, tr)
  | (Except.ok apps1, tr1) => after_setup timeoutSeconds w.probeRun apps1 tr1

/-- The message each except clause of `_initialize_firebase` logs. -/
def exc_log_message : Exc → String
  | Exc.fileNotFound p => "Firebase credentials file not found: " ++ p
  | Exc.valueError m => "Firebase initialization error: " ++ m
  | Exc.connectionFailed ProbeResult.ok => "Unexpected Firebase error: ok"
  | Exc.connectionFailed ProbeResult.testFailed =>
      "Unexpected Firebase error: connection test failed"
  | Exc.connectionFailed ProbeResult.timedOut =>
      "Unexpected Firebase error: connection test timed out"

/-- Embedding of `_initialize_firebase`: the try block, then the except
clauses, each of which logs at error level and re-raises (`raise`), so an
`Except.error` result is an exception propagating to the caller. -/
def initialize_firebase (w : World) (timeoutSeconds : Nat) (apps : Bool)
    (cfg : AATMConfig) (sm : StateManager) :
    Except Exc Unit × Bool × StateManager × List Event :=
  match initialize_firebase_try w timeoutSeconds apps cfg sm with
  | (Except.ok u, a, s, tr) => (Except.ok u, a, s, tr)
  | (Except.error e, a, s, tr) =>
      (Except.error e, a, s, tr ++ [Event.log LogLevel.error (exc_log_message e)])

/-- Embedding of `StateManager.__init__`: `self.client = None`,
`self._initialized = False`, then `self._initialize_firebase()`. -/
def StateManager.new (w : World) (timeoutSeconds : Nat) (apps : Bool)
    (cfg : AATMConfig) : Except Exc Unit × Bool × StateManager × List Event :=
  initialize_firebase w timeoutSeconds apps cfg { client := none, initialized := false }

/-- The observable results of two successive initialization calls: a fresh
`StateManager` construction, then `_initialize_firebase` called again with the
process-wide apps flag and instance state the first call left behind. -/
structure TwoCalls where
  result1 : Except Exc Unit
  state1 : StateManager
  trace1 : List Event
  result2 : Except Exc Unit
  state2 : StateManager
  trace2 : List Event

/-- Runs initialization twice in succession in the same process: the second
call sees the apps flag and instance state the first call left behind. -/
def run_init_twice (w : World) (timeoutSeconds : Nat) (cfg : AATMConfig) :
    TwoCalls :=
  let c1 := StateManager.new w timeoutSeconds false cfg
  let c2 := initialize_firebase w timeoutSeconds c1.2.1 cfg c1.2.2.1
  { result1 := c1.1, state1 := c1.2.2.1, trace1 := c1.2.2.2,
    result2 := c2.1, state2 := c2.2.2.1, trace2 := c2.2.2.2 }

/-- A world where the credential file is readable and the probe round trip
succeeds quickly. -/
def readableWorldOk : World where
  credReadable := fun _ => true
  probeRun := { workerDuration := 1, outcome := ProbeBodyOutcome.ok }

/-- A world where the credential file cannot be read. -/
def missingCredWorld : World where
  credReadable := fun _ => false
  probeRun := { workerDuration := 1, outcome := ProbeBodyOutcome.ok }

/-- A world where the probe body raises (say a permission error). -/
def failingProbeWorld : World where
  credReadable := fun _ => true
  probeRun := { workerDuration := 1, outcome := ProbeBodyOutcome.exc "permission denied" }

/-- A fully configured store sub-configuration. -/
def baseFirebase : FirebaseConfig where
  project_id := "aatm-project"
  credentials_path := "./firebase_credentials.json"

/-- A configuration with a non-empty project id and defaults elsewhere. -/
def baseConfig : AATMConfig := { firebase := baseFirebase }

/-- A configuration whose store project identity is the empty string but whose
credentials path is set. -/
def emptyProjectConfig : AATMConfig where
  firebase := { project_id := "", credentials_path := "./firebase_credentials.json" }

/-- The instance state at the start of `__init__`. -/
def sm0 : StateManager where
  client := none
  initialized := false

/-- A configuration with an oversized position-size percentage. -/
def riskyConfig : AATMConfig where
  firebase := baseFirebase
  risk := { max_position_size_pct := 11 }

/-- A configuration with a non-empty project id whose other fields are
pathological: negative candle count and refresh interval, a mutation rate
outside [0,1], a negative crossover rate, and an elitism count exceeding the
population size. -/
def weirdConfig : AATMConfig where
  firebase := baseFirebase
  market := { max_historical_candles := -1, realtime_update_interval := -60 }
  strategy := { mutation_rate := 2, crossover_rate := -1, elitism_count := 99 }
  risk := { max_position_size_pct := 2 }

/-- An environment with no variable set. -/
def unsetEnv : Env := fun _ => none

/-- The configuration loaded under `unsetEnv`. -/
def envConfig : AATMConfig where
  firebase := FirebaseConfig.fromEnv unsetEnv

/-- Projecting the result out of the except clauses: `_initialize_firebase`
re-raises, so the try block's outcome is the function's outcome. -/
theorem initialize_firebase_fst (w : World) (t : Nat) (apps : Bool)
    (cfg : AATMConfig) (sm : StateManager) :
    (initialize_firebase w t apps cfg sm).1 =
      (initialize_firebase_try w t apps cfg sm).1 := by
  unfold initialize_firebase
  rcases h : initialize_firebase_try w t apps cfg sm with ⟨r, a, s, tr⟩
  cases r <;> rfl

/-- The except clauses leave the instance state as the try block left it. -/
theorem initialize_firebase_state (w : World) (t : Nat) (apps : Bool)
    (cfg : AATMConfig) (sm : StateManager) :
    (initialize_firebase w t apps cfg sm).2.2.1 =
      (initialize_firebase_try w t apps cfg sm).2.2.1 := by
  unfold initialize_firebase
  rcases h : initialize_firebase_try w t apps cfg sm with ⟨r, a, s, tr⟩
  cases r <;> rfl

/-- The except clauses only append to the trace, so an event of the try
block's trace is in the function's trace. -/
theorem initialize_firebase_trace_mem (w : World) (t : Nat) (apps : Bool)
    (cfg : AATMConfig) (sm : StateManager) (e : Event)
    (h : e ∈ (initialize_firebase_try w t apps cfg sm).2.2.2) :
    e ∈ (initialize_firebase w t apps cfg sm).2.2.2 := by
  unfold initialize_firebase
  rcases hh : initialize_firebase_try w t apps cfg sm with ⟨r, a, s, tr⟩
  rw [hh] at h
  cases r
  · exact List.mem_append_left _ (by simpa using h)
  · simpa using h

/-- When an app already exists, `app_setup` does nothing. -/
theorem app_setup_apps (w : World) (cfg : AATMConfig) :
    app_setup w true cfg = (Except.ok true, []) := rfl

/-- An empty credentials path raises `ValueError` before any I/O. -/
theorem app_setup_no_path (w : World) (cfg : AATMConfig)
    (h : cfg.firebase.credentials_path = "") :
    app_setup w false cfg =
      (Except.error (Exc.valueError "Firebase credentials path not configured"),
       []) := by
  simp [app_setup, h]

/-- With a readable credentials file, `app_setup` loads the certificate,
creates the app and logs at info level. -/
theorem app_setup_readable (w : World) (cfg : AATMConfig)
    (h1 : ¬ cfg.firebase.credentials_path = "")
    (h2 : w.credReadable cfg.firebase.credentials_path = true) :
    app_setup w false cfg =
      (Except.ok true,
        [Event.certificateLoad cfg.firebase.credentials_path,
         Event.appInit cfg.firebase.project_id,
         Event.log LogLevel.info
           ("Firebase initialized for project: " ++ cfg.firebase.project_id)]) := by
  simp [app_setup, h1, h2]

/-- With an unreadable credentials file, `app_setup` raises
`FileNotFoundError` out of the certificate load. -/
theorem app_setup_unreadable (w : World) (cfg : AATMConfig)
    (h1 : ¬ cfg.firebase.credentials_path = "")
    (h2 : w.credReadable cfg.firebase.credentials_path = false) :
    app_setup w false cfg =
      (Except.error (Exc.fileNotFound cfg.firebase.credentials_path),
       [Event.certificateLoad cfg.firebase.credentials_path]) := by
  simp [app_setup, h1, h2]

/-- The try block when app setup raises. -/
theorem try_of_setup_error (w : World) (t : Nat) (apps : Bool)
    (cfg : AATMConfig) (sm : StateManager) (e : Exc) (tr : List Event)
    (hs : app_setup w apps cfg = (Except.error e, tr)) :
    initialize_firebase_try w t apps cfg sm = (Except.error e, apps, sm, tr) := by
  unfold initialize_firebase_try
  rw [hs]

/-- The try block when app setup succeeds. -/
theorem try_of_setup_ok (w : World) (t : Nat) (apps : Bool)
    (cfg : AATMConfig) (sm : StateManager) (apps1 : Bool) (tr1 : List Event)
    (hs : app_setup w apps cfg = (Except.ok apps1, tr1)) :
    initialize_firebase_try w t apps cfg sm = after_setup t w.probeRun apps1 tr1 := by
  unfold initialize_firebase_try
  rw [hs]

/-- The probe trace always starts with the probe event. -/
theorem test_connection_probe_mem (t : Nat) (pr : ProbeRun) :
    Event.probeStart ∈ (test_connection t pr).2.1 := by
  show Event.probeStart ∈ Event.probeStart :: (connection_test_run pr.outcome).2
  exact List.mem_cons_self _ _

/-- A probe whose body succeeds within the bound reports success. -/
theorem test_connection_ok (t : Nat) (pr : ProbeRun)
    (hdur : pr.workerDuration ≤ t) (hout : pr.outcome = ProbeBodyOutcome.ok) :
    (test_connection t pr).1 = ProbeResult.ok := by
  simp [test_connection, hdur, hout, connection_test_run, connection_test,
    probeBodyRun]

/-- The worker trace of a successful probe body. -/
theorem test_connection_trace_ok (t : Nat) (pr : ProbeRun)
    (hout : pr.outcome = ProbeBodyOutcome.ok) :
    (test_connection t pr).2.1 =
      [Event.probeStart, Event.netSet, Event.netDelete] := by
  simp [test_connection, hout, connection_test_run, connection_test, probeBodyRun]

/-- Whatever the probe does, the instance is left marked initialized with the
handle cached (the flag is written before the probe runs). -/
theorem after_setup_state (t : Nat) (pr : ProbeRun) (a1 : Bool) (tr1 : List Event) :
    (after_setup t pr a1 tr1).2.2.1 =
      { client := some (ClientHandle.mk 0), initialized := true } := by
  unfold after_setup
  cases h : (test_connection t pr).1 <;> rfl

/-- The try block's result is either success or a connection failure once app
setup has succeeded. -/
theorem after_setup_fst_shape (t : Nat) (pr : ProbeRun) (a1 : Bool) (tr1 : List Event) :
    (after_setup t pr a1 tr1).1 = Except.ok () ∨
    ∃ prr, (after_setup t pr a1 tr1).1 = Except.error (Exc.connectionFailed prr) := by
  unfold after_setup
  cases h : (test_connection t pr).1
  · exact Or.inl rfl
  · exact Or.inr ⟨_, rfl⟩
  · exact Or.inr ⟨_, rfl⟩

/-- A probe that does not succeed makes the try block raise. -/
theorem after_setup_fst_notok (t : Nat) (pr : ProbeRun) (a1 : Bool) (tr1 : List Event)
    (hp : (test_connection t pr).1 ≠ ProbeResult.ok) :
    excRaised (after_setup t pr a1 tr1).1 = true := by
  unfold after_setup
  cases h : (test_connection t pr).1
  · exact absurd h hp
  · rfl
  · rfl

/-- The trace of the try block past app setup: the client construction and
then the probe. -/
theorem after_setup_trace (t : Nat) (pr : ProbeRun) (a1 : Bool) (tr1 : List Event) :
    (after_setup t pr a1 tr1).2.2.2 =
      tr1 ++ Event.clientConstruct :: (test_connection t pr).2.1 := by
  unfold after_setup
  cases h : (test_connection t pr).1 <;> rfl

/-- Full reduction of the try block's tail when the probe succeeds in time. -/
theorem after_setup_ok (t : Nat) (pr : ProbeRun) (a1 : Bool) (tr1 : List Event)
    (hdur : pr.workerDuration ≤ t) (hout : pr.outcome = ProbeBodyOutcome.ok) :
    after_setup t pr a1 tr1 =
      (Except.ok (), a1,
       { client := some (ClientHandle.mk 0), initialized := true },
       tr1 ++ [Event.clientConstruct, Event.probeStart, Event.netSet,
               Event.netDelete]) := by
  unfold after_setup
  rw [test_connection_ok t pr hdur hout, test_connection_trace_ok t pr hout]

/-- Full reduction of a first, fresh initialization that succeeds. -/
theorem init_ok_full (w : World) (t : Nat) (cfg : AATMConfig) (sm : StateManager)
    (hpath : ¬ cfg.firebase.credentials_path = "")
    (hread : w.credReadable cfg.firebase.credentials_path = true)
    (hdur : w.probeRun.workerDuration ≤ t)
    (hout : w.probeRun.outcome = ProbeBodyOutcome.ok) :
    initialize_firebase w t false cfg sm =
      (Except.ok (), true,
       { client := some (ClientHandle.mk 0), initialized := true },
       [Event.certificateLoad cfg.firebase.credentials_path,
        Event.appInit cfg.firebase.project_id,
        Event.log LogLevel.info
          ("Firebase initialized for project: " ++ cfg.firebase.project_id),
        Event.clientConstruct, Event.probeStart, Event.netSet,
        Event.netDelete]) := by
  have htry := try_of_setup_ok w t false cfg sm true _
    (app_setup_readable w cfg hpath hread)
  unfold initialize_firebase
  rw [htry, after_setup_ok t w.probeRun true _ hdur hout]
  rfl

/-- Full reduction of a repeat initialization (app already present) whose
probe succeeds: the client is re-acquired and the probe re-run. -/
theorem init_again_full (w : World) (t : Nat) (cfg : AATMConfig) (sm : StateManager)
    (hdur : w.probeRun.workerDuration ≤ t)
    (hout : w.probeRun.outcome = ProbeBodyOutcome.ok) :
    initialize_firebase w t true cfg sm =
      (Except.ok (), true,
       { client := some (ClientHandle.mk 0), initialized := true },
       [Event.clientConstruct, Event.probeStart, Event.netSet,
        Event.netDelete]) := by
  have htry := try_of_setup_ok w t true cfg sm true [] (app_setup_apps w cfg)
  unfold initialize_firebase
  rw [htry, after_setup_ok t w.probeRun true [] hdur hout]
  rfl

/-- The `ValueError` of the empty-credentials-path check is the only
`ValueError` the embedded initialization can raise. -/
theorem init_valueError_only_empty_path (w : World) (t : Nat) (apps : Bool)
    (cfg : AATMConfig) (sm : StateManager)
    (hres : (initialize_firebase w t apps cfg sm).1 =
      Except.error (Exc.valueError "Firebase credentials path not configured")) :
    cfg.firebase.credentials_path = "" := by
  by_contra hne
  rw [initialize_firebase_fst] at hres
  have hafter : ∀ a1 tr1,
      initialize_firebase_try w t apps cfg sm = after_setup t w.probeRun a1 tr1 →
      False := by
    intro a1 tr1 heq
    rw [heq] at hres
    rcases after_setup_fst_shape t w.probeRun a1 tr1 with hok | ⟨prr, herr⟩
    · rw [hok] at hres
      exact Except.noConfusion hres
    · rw [herr] at hres
      exact Exc.noConfusion (Except.error.inj hres)
  cases apps with
  | true =>
      exact hafter true [] (try_of_setup_ok w t true cfg sm true [] (app_setup_apps w cfg))
  | false =>
      by_cases hr : w.credReadable cfg.firebase.credentials_path = true
      · exact hafter true _
          (try_of_setup_ok w t false cfg sm true _ (app_setup_readable w cfg hne hr))
      · have hr2 : w.credReadable cfg.firebase.credentials_path = false := by
          cases hcr : w.credReadable cfg.firebase.credentials_path
          · rfl
          · exact absurd hcr hr
        have htry := try_of_setup_error w t false cfg sm _ _
          (app_setup_unreadable w cfg hne hr2)
        rw [htry] at hres
        exact Exc.noConfusion (Except.error.inj hres)

/-- Claim C1: for every configuration whose store project identity
(firebase.project_id) is the empty string, validate returns false, emits an
error-level log, and performs no network call. -/
theorem validate_empty_project_id_fails (cfg : AATMConfig)
    (h : cfg.firebase.project_id = "") :
    (cfg.validate).1 = false ∧
    (cfg.validate).2 = [Event.log LogLevel.error "Firebase project ID not configured"] ∧
    noNetwork (cfg.validate).2 = true := by
  refine ⟨?_, ?_, ?_⟩ <;>
    simp [AATMConfig.validate, h, noNetwork, Event.isNetwork]

/-- Witness for C1 at the configuration with empty project id. -/
theorem validate_empty_project_id_fails_witness :
    (emptyProjectConfig.validate).1 = false ∧
    (emptyProjectConfig.validate).2 =
      [Event.log LogLevel.error "Firebase project ID not configured"] ∧
    noNetwork (emptyProjectConfig.validate).2 = true :=
  validate_empty_project_id_fails emptyProjectConfig rfl

/-- Claim C8: for every configuration with max_position_size_pct greater than
10 and a non-empty project id, validate returns true and emits a
warning-level diagnostic; the warning never causes validation to fail. -/
theorem validate_position_warning_nonfatal (cfg : AATMConfig)
    (h1 : ¬ cfg.firebase.project_id = "")
    (h2 : cfg.risk.max_position_size_pct > 10) :
    cfg.validate =
      (true, [Event.log LogLevel.warning "Position size exceeds recommended maximum"]) := by
  simp [AATMConfig.validate, h1, h2]

/-- Witness for C8 at a configuration with position size 11 percent. -/
theorem validate_position_warning_nonfatal_witness :
    riskyConfig.validate =
      (true, [Event.log LogLevel.warning "Position size exceeds recommended maximum"]) :=
  validate_position_warning_nonfatal riskyConfig (by decide) (by decide)

/-- Claim C9: for every configuration whose store project identity is
non-empty, validate returns true regardless of all other fields, and the
project-id emptiness test and the position-size warning are the only checks
it performs: the diagnostics are exactly the warning when the position size
exceeds 10 and nothing otherwise. -/
theorem validate_checks_only_two_fields (cfg : AATMConfig)
    (h : ¬ cfg.firebase.project_id = "") :
    cfg.validate =
      (true,
        if cfg.risk.max_position_size_pct > 10 then
          [Event.log LogLevel.warning "Position size exceeds recommended maximum"]
        else []) := by
  simp [AATMConfig.validate, h]

/-- Witness for C9 at a configuration with pathological unchecked fields
(negative candle count and interval, mutation rate 2, crossover rate -1,
elitism count 99 over population 10): validation still passes silently. -/
theorem validate_checks_only_two_fields_witness :
    weirdConfig.validate = (true, []) := by
  have h := validate_checks_only_two_fields weirdConfig (by decide)
  rw [h]
  decide

/-- Claim C4: every exception raised inside the connectivity probe body is
caught locally within `connection_test` and converted to a failed result with
an error log; no exception ever propagates out of the probe closure. -/
theorem connection_test_catches_exceptions (cause : String) :
    connection_test (ProbeBodyOutcome.exc cause) =
      Except.ok (false,
        [Event.log LogLevel.error ("Firebase connection test failed: " ++ cause)]) ∧
    ∀ o : ProbeBodyOutcome, excRaised (connection_test o) = false := by
  refine ⟨rfl, ?_⟩
  intro o
  cases o <;> rfl

/-- Claim C3 (failing input, timeout 2 s and a worker that stalls 5 s): the
probe reports the timeout result, but the caller is unblocked only at 5 s,
when the stalled worker finishes, because the executor's with-block joins the
worker; the claim's bound of timeout plus small overhead is violated. -/
theorem probe_timeout_blocks_until_worker_finishes :
    (test_connection 2 { workerDuration := 5, outcome := ProbeBodyOutcome.ok }).1 =
      ProbeResult.timedOut ∧
    (test_connection 2 { workerDuration := 5, outcome := ProbeBodyOutcome.ok }).2.2 = 5 ∧
    ¬ (test_connection 2 { workerDuration := 5, outcome := ProbeBodyOutcome.ok }).2.2 ≤ 2 := by
  decide

/-- Claim C2 counterexample: with a readable credential file and a healthy
store, initializing twice in one process runs the connectivity probe twice,
not once as the claim states. -/
theorem init_twice_runs_probe_twice :
    countProbe ((run_init_twice readableWorldOk 2 baseConfig).trace1 ++
      (run_init_twice readableWorldOk 2 baseConfig).trace2) = 2 ∧
    ¬ countProbe ((run_init_twice readableWorldOk 2 baseConfig).trace1 ++
      (run_init_twice readableWorldOk 2 baseConfig).trace2) = 1 := by
  decide

/-- Claim C2 as amended: a second initialization in a process whose app
already exists performs no second credential load or app creation (exactly
one app initialization in total) and yields the same client handle, but it
re-acquires the client and re-runs the connectivity probe, so the two calls
perform two probes in total. -/
theorem init_twice_single_app_init_two_probes (w : World) (t : Nat) (cfg : AATMConfig)
    (hpath : ¬ cfg.firebase.credentials_path = "")
    (hread : w.credReadable cfg.firebase.credentials_path = true)
    (hdur : w.probeRun.workerDuration ≤ t)
    (hout : w.probeRun.outcome = ProbeBodyOutcome.ok) :
    (run_init_twice w t cfg).result1 = Except.ok () ∧
    (run_init_twice w t cfg).result2 = Except.ok () ∧
    (run_init_twice w t cfg).state1.initialized = true ∧
    (run_init_twice w t cfg).state2 = (run_init_twice w t cfg).state1 ∧
    (run_init_twice w t cfg).state1.client = some (ClientHandle.mk 0) ∧
    countAppInit ((run_init_twice w t cfg).trace1 ++
      (run_init_twice w t cfg).trace2) = 1 ∧
    countProbe ((run_init_twice w t cfg).trace1 ++
      (run_init_twice w t cfg).trace2) = 2 := by
  have h1 := init_ok_full w t cfg { client := none, initialized := false }
    hpath hread hdur hout
  have h2 := init_again_full w t cfg
    { client := some (ClientHandle.mk 0), initialized := true } hdur hout
  unfold run_init_twice StateManager.new
  rw [h1]
  dsimp only
  rw [h2]
  refine ⟨rfl, rfl, rfl, rfl, rfl, ?_, ?_⟩
  · simp [countAppInit, List.filter, Event.isAppInit]
  · simp [countProbe, List.filter, Event.isProbe]

/-- Witness for the amended C2 at a concrete healthy world. -/
theorem init_twice_single_app_init_two_probes_witness :
    (run_init_twice readableWorldOk 2 baseConfig).result1 = Except.ok () ∧
    (run_init_twice readableWorldOk 2 baseConfig).result2 = Except.ok () ∧
    (run_init_twice readableWorldOk 2 baseConfig).state1.initialized = true ∧
    (run_init_twice readableWorldOk 2 baseConfig).state2 =
      (run_init_twice readableWorldOk 2 baseConfig).state1 ∧
    (run_init_twice readableWorldOk 2 baseConfig).state1.client =
      some (ClientHandle.mk 0) ∧
    countAppInit ((run_init_twice readableWorldOk 2 baseConfig).trace1 ++
      (run_init_twice readableWorldOk 2 baseConfig).trace2) = 1 ∧
    countProbe ((run_init_twice readableWorldOk 2 baseConfig).trace1 ++
      (run_init_twice readableWorldOk 2 baseConfig).trace2) = 2 :=
  init_twice_single_app_init_two_probes readableWorldOk 2 baseConfig
    (by decide) rfl (by decide) rfl

/-- Claim C5 counterexample: with an unreadable credential file, the embedded
initialization ends in a propagating exception (the logged FileNotFoundError
is re-raised), not in a failure value returned to the caller. -/
theorem init_missing_cred_raises_not_returns :
    (initialize_firebase missingCredWorld 2 false baseConfig sm0).1 =
      Except.error (Exc.fileNotFound "./firebase_credentials.json") ∧
    excRaised (initialize_firebase missingCredWorld 2 false baseConfig sm0).1 = true :=
  ⟨rfl, rfl⟩

/-- Claim C5 as amended: a credential reference that does not resolve to a
readable artifact makes initialization log the failure at error level and
re-raise the FileNotFoundError to the caller — it is not converted into a
returned value — and no network call, client construction or probe happens
before the exception propagates; the instance state is left untouched. -/
theorem init_missing_cred_logs_and_reraises (w : World) (t : Nat)
    (cfg : AATMConfig) (sm : StateManager)
    (hpath : ¬ cfg.firebase.credentials_path = "")
    (hread : w.credReadable cfg.firebase.credentials_path = false) :
    initialize_firebase w t false cfg sm =
      (Except.error (Exc.fileNotFound cfg.firebase.credentials_path), false, sm,
       [Event.certificateLoad cfg.firebase.credentials_path,
        Event.log LogLevel.error
          ("Firebase credentials file not found: " ++ cfg.firebase.credentials_path)]) ∧
    noNetwork (initialize_firebase w t false cfg sm).2.2.2 = true := by
  have htry := try_of_setup_error w t false cfg sm _ _
    (app_setup_unreadable w cfg hpath hread)
  unfold initialize_firebase
  rw [htry]
  exact ⟨rfl, rfl⟩

/-- Witness for the amended C5 at a concrete unreadable-credentials world. -/
theorem init_missing_cred_logs_and_reraises_witness :
    initialize_firebase missingCredWorld 2 false baseConfig sm0 =
      (Except.error (Exc.fileNotFound "./firebase_credentials.json"), false, sm0,
       [Event.certificateLoad "./firebase_credentials.json",
        Event.log LogLevel.error
          "Firebase credentials file not found: ./firebase_credentials.json"]) ∧
    noNetwork (initialize_firebase missingCredWorld 2 false baseConfig sm0).2.2.2 = true :=
  init_missing_cred_logs_and_reraises missingCredWorld 2 baseConfig sm0
    (by decide) rfl

/-- Claim C6 counterexample: with an empty project identity but a readable
credential file, initialization does not fail with a configuration error and
it does attempt network I/O — the client is constructed and the probe's
write reaches the store. -/
theorem init_empty_project_id_probes_network :
    (initialize_firebase readableWorldOk 2 false emptyProjectConfig sm0).1 =
      Except.ok () ∧
    Event.probeStart ∈
      (initialize_firebase readableWorldOk 2 false emptyProjectConfig sm0).2.2.2 ∧
    Event.netSet ∈
      (initialize_firebase readableWorldOk 2 false emptyProjectConfig sm0).2.2.2 ∧
    Event.clientConstruct ∈
      (initialize_firebase readableWorldOk 2 false emptyProjectConfig sm0).2.2.2 :=
  ⟨rfl, by decide, by decide, by decide⟩

/-- Claim C6 as amended: the only incompleteness the initialization rejects
before I/O is an empty credentials path, which raises ValueError with no
certificate load, client construction or probe; an empty project identity is
not checked, and with a readable credential file the probe runs regardless of
the project id. -/
theorem init_checks_only_credentials_path (w : World) (t : Nat)
    (cfg : AATMConfig) (sm : StateManager) :
    (cfg.firebase.credentials_path = "" →
      initialize_firebase w t false cfg sm =
        (Except.error (Exc.valueError "Firebase credentials path not configured"),
         false, sm,
         [Event.log LogLevel.error
            "Firebase initialization error: Firebase credentials path not configured"])) ∧
    (¬ cfg.firebase.credentials_path = "" →
      w.credReadable cfg.firebase.credentials_path = true →
      Event.probeStart ∈ (initialize_firebase w t false cfg sm).2.2.2) := by
  constructor
  · intro h
    have htry := try_of_setup_error w t false cfg sm _ _ (app_setup_no_path w cfg h)
    unfold initialize_firebase
    rw [htry]
    rfl
  · intro h1 h2
    have htry := try_of_setup_ok w t false cfg sm true _
      (app_setup_readable w cfg h1 h2)
    apply initialize_firebase_trace_mem
    rw [htry, after_setup_trace]
    exact List.mem_append_right _
      (List.mem_cons_of_mem _ (test_connection_probe_mem t w.probeRun))

/-- Witness for the amended C6: under an empty project id with readable
credentials the probe event is in the trace. -/
theorem init_checks_only_credentials_path_witness :
    Event.probeStart ∈
      (initialize_firebase readableWorldOk 2 false emptyProjectConfig sm0).2.2.2 :=
  (init_checks_only_credentials_path readableWorldOk 2 emptyProjectConfig sm0).2
    (by decide) rfl

/-- Claim C7 counterexample: with a probe whose body raises, initialization
ends in an error, yet the manager's initialized flag is set and the handle
cached — the ready-marked state is reached despite the failed probe. -/
theorem init_ready_despite_failed_probe :
    excRaised (StateManager.new failingProbeWorld 2 false baseConfig).1 = true ∧
    (StateManager.new failingProbeWorld 2 false baseConfig).2.2.1.initialized = true ∧
    (StateManager.new failingProbeWorld 2 false baseConfig).2.2.1.client =
      some (ClientHandle.mk 0) :=
  ⟨rfl, rfl, rfl⟩

/-- Claim C7 as amended: once the client is constructed the manager marks
itself initialized and caches the handle before the probe's outcome is known;
whatever the probe does the flag and handle stay set, and a probe that does
not succeed raises while leaving the instance in that ready-marked state. -/
theorem init_sets_ready_before_probe_result (w : World) (t : Nat)
    (cfg : AATMConfig) (sm : StateManager)
    (hpath : ¬ cfg.firebase.credentials_path = "")
    (hread : w.credReadable cfg.firebase.credentials_path = true) :
    (initialize_firebase w t false cfg sm).2.2.1 =
      { client := some (ClientHandle.mk 0), initialized := true } ∧
    ((test_connection t w.probeRun).1 ≠ ProbeResult.ok →
      excRaised (initialize_firebase w t false cfg sm).1 = true) := by
  have htry := try_of_setup_ok w t false cfg sm true _
    (app_setup_readable w cfg hpath hread)
  constructor
  · rw [initialize_firebase_state, htry]
    exact after_setup_state t w.probeRun true _
  · intro hp
    rw [initialize_firebase_fst, htry]
    exact after_setup_fst_notok t w.probeRun true _ hp

/-- Witness for the amended C7 at a world whose probe body raises. -/
theorem init_sets_ready_before_probe_result_witness :
    (initialize_firebase failingProbeWorld 2 false baseConfig sm0).2.2.1 =
      { client := some (ClientHandle.mk 0), initialized := true } ∧
    ((test_connection 2 failingProbeWorld.probeRun).1 ≠ ProbeResult.ok →
      excRaised (initialize_firebase failingProbeWorld 2 false baseConfig sm0).1 = true) :=
  init_sets_ready_before_probe_result failingProbeWorld 2 baseConfig sm0
    (by decide) rfl

/-- Claim C10: when the credential-path environment variable is unset the
credentials path defaults to the non-empty string ./firebase_credentials.json,
and the initialization branch raising the message about an unconfigured
credentials path fires only when the path is empty, which under the
environment-driven loader happens only when the variable is explicitly set to
the empty string. -/
theorem credentials_path_default_nonempty (env : Env) (w : World) (t : Nat)
    (apps : Bool) (cfg : AATMConfig) (sm : StateManager)
    (hcfg : cfg.firebase = FirebaseConfig.fromEnv env) :
    (env "FIREBASE_CREDENTIALS_PATH" = none →
      cfg.firebase.credentials_path = "./firebase_credentials.json") ∧
    (cfg.firebase.credentials_path = "" ↔
      env "FIREBASE_CREDENTIALS_PATH" = some "") ∧
    ((initialize_firebase w t apps cfg sm).1 =
        Except.error (Exc.valueError "Firebase credentials path not configured") →
      env "FIREBASE_CREDENTIALS_PATH" = some "") := by
  have hpath : cfg.firebase.credentials_path =
      (env "FIREBASE_CREDENTIALS_PATH").getD "./firebase_credentials.json" := by
    rw [hcfg]
    rfl
  have hiff : cfg.firebase.credentials_path = "" ↔
      env "FIREBASE_CREDENTIALS_PATH" = some "" := by
    rw [hpath]
    cases hE : env "FIREBASE_CREDENTIALS_PATH" with
    | none => simp
    | some v => simp
  refine ⟨?_, hiff, ?_⟩
  · intro h
    rw [hpath, h]
    rfl
  · intro hres
    exact hiff.mp (init_valueError_only_empty_path w t apps cfg sm hres)

/-- Witness for C10 under the empty environment. -/
theorem credentials_path_default_nonempty_witness :
    (unsetEnv "FIREBASE_CREDENTIALS_PATH" = none →
      envConfig.firebase.credentials_path = "./firebase_credentials.json") ∧
    (envConfig.firebase.credentials_path = "" ↔
      unsetEnv "FIREBASE_CREDENTIALS_PATH" = some "") ∧
    ((initialize_firebase readableWorldOk 2 false envConfig sm0).1 =
        Except.error (Exc.valueError "Firebase credentials path not configured") →
      unsetEnv "FIREBASE_CREDENTIALS_PATH" = some "") :=
  credentials_path_default_nonempty unsetEnv readableWorldOk 2 false envConfig sm0 rfl
